import Mathlib

/-!
Shallow embedding of src/automatic_attachement_download.py.

The program polls IMAP accounts, downloads attachments of unread messages
from allow-listed senders into a per-day directory, and marks those
messages as read.  External collaborators (IMAP server, filesystem, clock,
sleep) are modelled as explicit oracle parameters; the control flow and
state updates below mirror the Python source line by line.
-/

namespace MailDownloader

/-- Decoded payload bytes of a message part. -/
abbrev Bytes := List Nat

/-- Filesystem file contents: maps a path to the bytes stored there. -/
abbrev FS := String → Option Bytes

/-- Models os.path.join(dir, name) for the simple two-component case used
by the source. -/
def pathJoin (dir name : String) : String := dir ++ "/" ++ name

/-- MAX_RETRIES constant (line 10 of the source). -/
def MAX_RETRIES : Nat := 3

/-- RETRY_DELAY constant (line 11 of the source), in seconds. -/
def RETRY_DELAY : Nat := 5

/-- One MIME part of a parsed message, as seen by the source: its content
maintype, its Content-Disposition header (None when absent), its optional
filename, and its decoded payload. -/
structure Part where
  contentMaintype : String
  contentDisposition : Option String
  filename : Option String
  payload : Bytes
  deriving DecidableEq

/-- A parsed email message: the raw From header value, whether it is
multipart, and its parts in msg.walk() order. -/
structure ParsedMessage where
  fromHeader : String
  isMultipart : Bool
  parts : List Part
  deriving DecidableEq

/-- EmailDownloader.is_attachment (line 104): the part is an attachment iff
its content maintype is not multipart and its Content-Disposition header is
present. -/
def is_attachment (part : Part) : Bool :=
  part.contentMaintype != "multipart" && part.contentDisposition.isSome

/-- EmailDownloader.save_attachment (lines 107-117).  writeFails is the
filesystem oracle saying whether the open/write at a given path raises; the
source catches that exception and logs, leaving the filesystem unchanged.
A successful write stores the decoded payload at attachments_dir/filename,
overwriting any previous contents (open with mode wb). -/
def save_attachment (writeFails : String → Bool) (attachments_dir : String)
    (fs : FS) (part : Part) : FS :=
  match part.filename with
  | none => fs
  | some filename =>
    let filepath := pathJoin attachments_dir filename
    if writeFails filepath then fs
    else fun p => if p = filepath then some part.payload else fs p

/-- EmailDownloader.save_attachments (lines 98-102): on a multipart message,
walk the parts in order and save each part satisfying is_attachment; a
non-multipart message is left alone. -/
def save_attachments (writeFails : String → Bool) (attachments_dir : String)
    (fs : FS) (msg : ParsedMessage) : FS :=
  if msg.isMultipart then
    msg.parts.foldl
      (fun fs part =>
        if is_attachment part then save_attachment writeFails attachments_dir fs part
        else fs)
      fs
  else fs

/-- Models the Python dict-key membership test
sender_email in self.senders_dict (line 89): the senders dict is a list of
(address, display label) pairs and membership compares the key strings. -/
def senderAllowed (senders_dict : List (String × String)) (sender : String) : Bool :=
  senders_dict.any (fun kv => kv.1 == sender)

/-- Oracle describing what the IMAP server and parser do for one message:
whether mail.fetch raises, the result code it returns, whether
email.message_from_bytes raises, the parsed message, whether mail.store
raises, and which filesystem writes fail. -/
structure MsgOracle where
  fetchExc : Option String
  fetchResult : String
  parseExc : Option String
  msg : ParsedMessage
  storeExc : Option String
  writeFails : String → Bool

/-- The observable state touched by an account run: existing directories,
file contents, and the per-message seen flag. -/
structure World where
  dirs : String → Bool
  fs : FS
  seen : Nat → Bool

/-- EmailDownloader.process_email (lines 78-96).  The whole body sits in a
try/except Exception block, so every raise from fetch, parse, save or store
is caught and logged: the function always returns normally, with the state
reached at the point of the raise.  On an allow-listed sender it saves the
attachments and then marks the message seen. -/
def process_email (o : MsgOracle) (senders_dict : List (String × String))
    (attachments_dir : String) (email_id : Nat) (w : World) : World :=
  match o.fetchExc with
  | some _ => w
  | none =>
    if o.fetchResult != "OK" then w
    else
      match o.parseExc with
      | some _ => w
      | none =>
        if senderAllowed senders_dict o.msg.fromHeader then
          let w1 := { w with fs := save_attachments o.writeFails attachments_dir w.fs o.msg }
          match o.storeExc with
          | some _ => w1
          | none => { w1 with seen := fun i => if i == email_id then true else w1.seen i }
        else w

/-- Result of EmailDownloader.connect: the connection handle self.mail
(none when all attempts failed), the number of connection attempts made,
and the number of time.sleep(RETRY_DELAY) waits performed. -/
structure ConnectResult where
  mail : Option Unit
  attempts : Nat
  sleeps : Nat
  deriving DecidableEq

/-- The while-loop of EmailDownloader.connect (lines 27-39): ok tells
whether the attempt at a given index succeeds; fuel is the number of
remaining attempts (MAX_RETRIES - retries).  After a failed attempt the
loop sleeps only when retries is still below MAX_RETRIES. -/
def connectAux (ok : Nat → Bool) (attempt : Nat) : Nat → ConnectResult
  | 0 => ⟨none, 0, 0⟩
  | Nat.succ fuel =>
    if ok attempt then ⟨some (), 1, 0⟩
    else if fuel == 0 then ⟨none, 1, 0⟩
    else
      let r := connectAux ok (attempt + 1) fuel
      ⟨r.mail, r.attempts + 1, r.sleeps + 1⟩

/-- EmailDownloader.connect (lines 26-41): run the retry loop from retries
= 0; after exhausting all attempts, self.mail is set to None (line 41). -/
def connect (ok : Nat → Bool) : ConnectResult := connectAux ok 0 MAX_RETRIES

/-- EmailDownloader.create_attachments_directory (lines 43-53): the path is
base_dir joined with the date; when the directory already exists it is
reused; otherwise os.makedirs runs and, when it raises (oracle mkdirFails),
the error is caught and self.attachments_dir is set to None.  Returns the
updated directory set and the resulting self.attachments_dir. -/
def create_attachments_directory (dirs : String → Bool) (mkdirFails : Bool)
    (base_dir today_date : String) : (String → Bool) × Option String :=
  let attachments_dir := pathJoin base_dir today_date
  if dirs attachments_dir then (dirs, some attachments_dir)
  else if mkdirFails then (dirs, none)
  else (fun d => d == attachments_dir || dirs d, some attachments_dir)

/-- The select+search retry loop of EmailDownloader.download_attachments
(lines 61-76): succeeds iff one of the first fuel attempts succeeds. -/
def downloadAux (ok : Nat → Bool) (attempt : Nat) : Nat → Bool
  | 0 => false
  | Nat.succ fuel => if ok attempt then true else downloadAux ok (attempt + 1) fuel

/-- The for-loop over email_ids (lines 67-68): process each id in order
with its oracle.  process_email never raises, so the loop always reaches
every id. -/
def processBatch (oracles : Nat → MsgOracle) (senders_dict : List (String × String))
    (attachments_dir : String) (ids : List Nat) (w : World) : World :=
  ids.foldl
    (fun w email_id => process_email (oracles email_id) senders_dict attachments_dir email_id w)
    w

/-- EmailDownloader.download_attachments (lines 55-76): returns immediately
when self.mail is None; otherwise retries select+search up to MAX_RETRIES
and, on a successful search returning ids, processes each message. -/
def download_attachments (mail : Option Unit) (searchOk : Nat → Bool) (ids : List Nat)
    (oracles : Nat → MsgOracle) (senders_dict : List (String × String))
    (attachments_dir : String) (w : World) : World :=
  match mail with
  | none => w
  | some _ =>
    if downloadAux searchOk 0 MAX_RETRIES then
      processBatch oracles senders_dict attachments_dir ids w
    else w

/-- EmailDownloader.logout (lines 119-122): a no-op when self.mail is None;
otherwise it calls self.mail.logout() with no exception handling, so a
raise there (oracle logoutRaises) propagates to the caller.  Returns the
uncaught exception, if any. -/
def logout (mail : Option Unit) (logoutRaises : Option String) : Option String :=
  match mail with
  | none => none
  | some _ => logoutRaises

/-- One account entry of the email_accounts list in main (lines 125-144),
together with the oracles describing what server, parser and filesystem do
during this account run. -/
structure AccountCfg where
  connectOk : Nat → Bool
  searchOk : Nat → Bool
  ids : List Nat
  oracles : Nat → MsgOracle
  senders_dict : List (String × String)
  base_dir : String
  mkdirFails : Bool
  logoutRaises : Option String

/-- Outcome of one iteration of the account loop in main. -/
structure AccountResult where
  world : World
  attachments_dir : Option String
  mail : Option Unit
  uncaught : Option String

/-- The per-account body of main (lines 146-160): connect, then
unconditionally create the attachments directory, then download only when
attachments_dir is set, then logout. -/
def run_account (cfg : AccountCfg) (today_date : String) (w : World) : AccountResult :=
  let c := connect cfg.connectOk
  let dres := create_attachments_directory w.dirs cfg.mkdirFails cfg.base_dir today_date
  let w1 : World := { w with dirs := dres.1 }
  let w2 :=
    match dres.2 with
    | some adir =>
      download_attachments c.mail cfg.searchOk cfg.ids cfg.oracles cfg.senders_dict adir w1
    | none => w1
  { world := w2, attachments_dir := dres.2, mail := c.mail
    uncaught := logout c.mail cfg.logoutRaises }

/-- The account loop of main (lines 146-160).  main has no try/except, so
an exception escaping run_account (only logout can raise one) aborts the
loop.  Returns the final world, how many accounts were started, and the
exception that escaped main, if any. -/
def main_loop (today_date : String) : List AccountCfg → World → World × Nat × Option String
  | [], w => (w, 0, none)
  | cfg :: rest, w =>
    let r := run_account cfg today_date w
    match r.uncaught with
    | some e => (r.world, 1, some e)
    | none =>
      let m := main_loop today_date rest r.world
      (m.1, m.2.1 + 1, m.2.2)

/-- A message oracle where everything succeeds and the message is trivial;
used as a default in concrete scenarios. -/
def oracleTrivial : MsgOracle :=
  ⟨none, "OK", none, ⟨"", false, []⟩, none, fun _ => false⟩

/-- An initially empty world: no directories, no files, nothing seen. -/
def w0 : World := ⟨fun _ => false, fun _ => none, fun _ => false⟩

/-- Concrete account whose connection permanently fails and whose other
oracles are benign. -/
def cfgConnFail : AccountCfg :=
  { connectOk := fun _ => false
    searchOk := fun _ => true
    ids := []
    oracles := fun _ => oracleTrivial
    senders_dict := []
    base_dir := "base"
    mkdirFails := false
    logoutRaises := none }

/-- Concrete account that connects on the first attempt, fails directory
creation, and whose logout raises. -/
def cfgLogoutRaises : AccountCfg :=
  { connectOk := fun _ => true
    searchOk := fun _ => false
    ids := []
    oracles := fun _ => oracleTrivial
    senders_dict := []
    base_dir := "b1"
    mkdirFails := true
    logoutRaises := some "logout failed" }

/-- Concrete account that connects on the first attempt, fails directory
creation, and logs out cleanly. -/
def cfgClean : AccountCfg :=
  { connectOk := fun _ => true
    searchOk := fun _ => false
    ids := []
    oracles := fun _ => oracleTrivial
    senders_dict := []
    base_dir := "b2"
    mkdirFails := true
    logoutRaises := none }

/-- Attachment part named a.txt with payload 1. -/
def partDup1 : Part := ⟨"text", some "attachment", some "a.txt", [1]⟩

/-- Attachment part also named a.txt but with payload 2. -/
def partDup2 : Part := ⟨"text", some "attachment", some "a.txt", [2]⟩

/-- Multipart message from an allow-listed sender carrying two attachment
parts that share the filename a.txt. -/
def msgDup : ParsedMessage := ⟨"a@x.com", true, [partDup1, partDup2]⟩

/-- Oracle for msgDup where fetch, parse, store and both writes succeed. -/
def oDup : MsgOracle := ⟨none, "OK", none, msgDup, none, fun _ => false⟩

/-- Attachment part f1 with payload 7. -/
def partF1 : Part := ⟨"text", some "attachment", some "f1", [7]⟩

/-- Attachment part f2 with payload 8. -/
def partF2 : Part := ⟨"text", some "attachment", some "f2", [8]⟩

/-- Multipart message from an allow-listed sender with two attachments
named f1 and f2. -/
def msgTwo : ParsedMessage := ⟨"a@x.com", true, [partF1, partF2]⟩

/-- Oracle for msgTwo where the write of out/f2 fails but everything else
succeeds. -/
def oTwo : MsgOracle :=
  ⟨none, "OK", none, msgTwo, none, fun pth => pth == pathJoin "out" "f2"⟩

/-- Oracle for a message from a sender outside the allow-list. -/
def oOther : MsgOracle := ⟨none, "OK", none, ⟨"b@y.com", true, [partF1]⟩, none, fun _ => false⟩

/-- Oracle for a message whose From header carries a display name around an
allow-listed address. -/
def oDisplay : MsgOracle :=
  ⟨none, "OK", none, ⟨"Alice <a@x.com>", true, [partF1]⟩, none, fun _ => false⟩

/-- A good oracle: allow-listed sender, everything succeeds. -/
def oGood : MsgOracle := ⟨none, "OK", none, ⟨"a@x.com", true, []⟩, none, fun _ => false⟩

/-- A bad oracle: mail.fetch raises. -/
def oBad : MsgOracle := ⟨some "boom", "OK", none, ⟨"a@x.com", true, []⟩, none, fun _ => false⟩

/-- Oracle family where message 2 is good and every other message's fetch
raises. -/
def oraclesMixed : Nat → MsgOracle := fun i => if i == 2 then oGood else oBad

/-- Concrete directory set containing exactly the per-day output path. -/
def dirsOne : String → Bool := fun d => d == pathJoin "b" "2024-01-01"

lemma connect_transient_ge (N : Nat) (h : MAX_RETRIES ≤ N) :
    connect (fun i => decide (N ≤ i)) = ⟨none, 3, 2⟩ := by
  have h3 : 3 ≤ N := by simpa [MAX_RETRIES] using h
  have h0 : (decide (N ≤ 0)) = false := by simp only [decide_eq_false_iff_not]; omega
  have h1 : (decide (N ≤ 1)) = false := by simp only [decide_eq_false_iff_not]; omega
  have h2 : (decide (N ≤ 2)) = false := by simp only [decide_eq_false_iff_not]; omega
  simp [connect, MAX_RETRIES, connectAux, h0, h1, h2]
  omega

/-- Claim C7: is_attachment is true exactly when the content maintype is
not multipart and the Content-Disposition header is present, and its value
does not depend on the payload. -/
theorem is_attachment_spec (p : Part) (b : Bytes) :
    (is_attachment p = true ↔
      (p.contentMaintype ≠ "multipart" ∧ p.contentDisposition ≠ none))
    ∧ is_attachment { p with payload := b } = is_attachment p := by
  constructor
  · simp [is_attachment, Bool.and_eq_true, bne_iff_ne, Option.isSome_iff_ne_none]
  · rfl

/-- Claim C3, counterexample: when a connection handle is present and the
protocol logout raises, the exception escapes logout, so logout does not
satisfy "never raises". -/
theorem logout_propagates_error_cex :
    logout (some ()) (some "socket error") ≠ none := by
  simp [logout]

/-- Claim C3, amended: logout is a no-op when not connected (and hence safe
to call repeatedly in that state), but when a connection handle is present
it invokes the protocol logout with no exception handling, so an error
during connection release propagates to the caller. -/
theorem logout_noop_or_propagates (e : Option String) (msg : String) :
    logout none e = none ∧ logout (some ()) (some msg) = some msg :=
  ⟨rfl, rfl⟩

/-- Claim C9: when the per-day directory already exists, resolving the
output directory twice for the same day errors neither time, returns the
same path base_dir/today both times, and leaves the directory set
unchanged, whatever the makedirs oracle says. -/
theorem create_attachments_directory_idempotent (dirs : String → Bool)
    (mk1 mk2 : Bool) (base_dir today_date : String)
    (h : dirs (pathJoin base_dir today_date) = true) :
    create_attachments_directory dirs mk1 base_dir today_date
      = (dirs, some (pathJoin base_dir today_date))
    ∧ create_attachments_directory
        (create_attachments_directory dirs mk1 base_dir today_date).1 mk2 base_dir today_date
      = (dirs, some (pathJoin base_dir today_date)) := by
  simp [create_attachments_directory, h]

/-- Claim C9, witness: concrete instantiation with the directory already
present. -/
theorem create_attachments_directory_idempotent_witness :
    create_attachments_directory dirsOne false "b" "2024-01-01"
      = (dirsOne, some (pathJoin "b" "2024-01-01"))
    ∧ create_attachments_directory
        (create_attachments_directory dirsOne false "b" "2024-01-01").1 true "b" "2024-01-01"
      = (dirsOne, some (pathJoin "b" "2024-01-01")) :=
  create_attachments_directory_idempotent dirsOne false true "b" "2024-01-01" (by decide)

/-- Claim C4: with a connect oracle that fails transiently N times and then
succeeds, connect succeeds iff N is below MAX_RETRIES, making exactly N + 1
attempts and N delay waits; with a permanently failing oracle, exactly
MAX_RETRIES = 3 attempts are made, no connection handle is retained, and
each delay wait lasts RETRY_DELAY = 5 time-units. -/
theorem connect_retry_spec (N : Nat) :
    ((connect (fun i => decide (N ≤ i))).mail.isSome = true ↔ N < MAX_RETRIES)
    ∧ (N < MAX_RETRIES →
        (connect (fun i => decide (N ≤ i))).attempts = N + 1
        ∧ (connect (fun i => decide (N ≤ i))).sleeps = N)
    ∧ (connect (fun _ => false)).attempts = MAX_RETRIES
    ∧ (connect (fun _ => false)).mail = none
    ∧ MAX_RETRIES = 3 ∧ RETRY_DELAY = 5 := by
  refine ⟨?_, ?_, by decide, by decide, by decide, by decide⟩
  · by_cases hN : N < 3
    · interval_cases N <;> decide
    · rw [connect_transient_ge N (by simpa [MAX_RETRIES] using hN)]
      simp [MAX_RETRIES]
      omega
  · intro hN
    have hN3 : N < 3 := by simpa [MAX_RETRIES] using hN
    interval_cases N <;> exact ⟨by decide, by decide⟩

/-- Claim C4, witness: one transient failure then success gives two
attempts and one delay wait. -/
theorem connect_retry_spec_witness :
    (connect (fun i => decide (1 ≤ i))).attempts = 1 + 1
    ∧ (connect (fun i => decide (1 ≤ i))).sleeps = 1 :=
  (connect_retry_spec 1).2.1 (by decide)

lemma process_email_not_allowed (o : MsgOracle) (senders_dict : List (String × String))
    (attachments_dir : String) (email_id : Nat) (w : World)
    (h : senderAllowed senders_dict o.msg.fromHeader = false) :
    process_email o senders_dict attachments_dir email_id w = w := by
  unfold process_email
  repeat' split
  all_goals first | rfl | simp_all

lemma process_email_seen_mono (o : MsgOracle) (senders_dict : List (String × String))
    (attachments_dir : String) (email_id : Nat) (w : World) (j : Nat)
    (h : w.seen j = true) :
    (process_email o senders_dict attachments_dir email_id w).seen j = true := by
  unfold process_email
  repeat' split
  all_goals simp_all

lemma process_email_sets_seen (o : MsgOracle) (senders_dict : List (String × String))
    (attachments_dir : String) (email_id : Nat) (w : World)
    (h1 : o.fetchExc = none) (h2 : o.fetchResult = "OK") (h3 : o.parseExc = none)
    (h4 : o.storeExc = none) (h5 : senderAllowed senders_dict o.msg.fromHeader = true) :
    (process_email o senders_dict attachments_dir email_id w).seen email_id = true := by
  unfold process_email
  simp [h1, h2, h3, h4, h5]

lemma processBatch_seen_mono (oracles : Nat → MsgOracle)
    (senders_dict : List (String × String)) (attachments_dir : String)
    (ids : List Nat) (w : World) (j : Nat) (h : w.seen j = true) :
    (processBatch oracles senders_dict attachments_dir ids w).seen j = true := by
  induction ids generalizing w with
  | nil => exact h
  | cons i rest ih =>
    exact ih _ (process_email_seen_mono _ _ _ _ _ _ h)

/-- Claim C6: processing a message whose sender is not a key of the sender
allow-list leaves the whole world unchanged (no filesystem write, no seen
flag change), whatever fetch, parse, store and the filesystem oracles do. -/
theorem sender_not_allowed_untouched (o : MsgOracle)
    (senders_dict : List (String × String)) (attachments_dir : String)
    (email_id : Nat) (w : World)
    (h : senderAllowed senders_dict o.msg.fromHeader = false) :
    process_email o senders_dict attachments_dir email_id w = w :=
  process_email_not_allowed o senders_dict attachments_dir email_id w h

/-- Claim C6, witness: a concrete message from b@y.com against an
allow-list keyed by a@x.com is left untouched. -/
theorem sender_not_allowed_untouched_witness :
    process_email oOther [("a@x.com", "A")] "out" 1 w0 = w0 :=
  sender_not_allowed_untouched oOther [("a@x.com", "A")] "out" 1 w0 (by decide)

/-- Claim C10: the allow-list membership test compares the entire raw From
header for exact string equality, so a From header of the shape
name followed by the bracketed address never matches an allow-list keyed by
the bare address, and the message is treated as not allow-listed (nothing
is written, nothing is marked seen). -/
theorem display_name_from_header_not_matched (name addr label attachments_dir : String)
    (email_id : Nat) (w : World) (o : MsgOracle)
    (h : o.msg.fromHeader = name ++ " <" ++ addr ++ ">") :
    process_email o [(addr, label)] attachments_dir email_id w = w := by
  refine process_email_not_allowed _ _ _ _ _ ?_
  rw [h]
  simp only [senderAllowed, List.any_cons, List.any_nil, Bool.or_false]
  rw [beq_eq_false_iff_ne]
  intro heq
  have hl := congrArg String.length heq
  rw [String.length_append, String.length_append, String.length_append] at hl
  have l1 : (" <" : String).length = 2 := rfl
  have l2 : (">" : String).length = 1 := rfl
  omega

/-- Claim C10, witness: an allow-list keyed by a@x.com does not match the
header Alice with bracketed a@x.com. -/
theorem display_name_from_header_not_matched_witness :
    process_email oDisplay [("a@x.com", "Alice")] "out" 1 w0 = w0 :=
  display_name_from_header_not_matched "Alice" "a@x.com" "Alice" "out" 1 w0 oDisplay rfl

/-- Claim C8: process_email catches every exception internally, so each
message of a batch is processed in isolation: whatever the other messages'
oracles do (fetch, parse or store raising included), an allow-listed
message whose own steps succeed still ends marked seen after the batch. -/
theorem failing_message_does_not_abort_batch (oracles : Nat → MsgOracle)
    (senders_dict : List (String × String)) (attachments_dir : String)
    (ids : List Nat) (w : World) (j : Nat)
    (hj : j ∈ ids)
    (h1 : (oracles j).fetchExc = none) (h2 : (oracles j).fetchResult = "OK")
    (h3 : (oracles j).parseExc = none) (h4 : (oracles j).storeExc = none)
    (h5 : senderAllowed senders_dict (oracles j).msg.fromHeader = true) :
    (processBatch oracles senders_dict attachments_dir ids w).seen j = true := by
  induction ids generalizing w with
  | nil => cases hj
  | cons i rest ih =>
    rcases List.mem_cons.mp hj with h | h
    · subst h
      have hstep : processBatch oracles senders_dict attachments_dir (j :: rest) w
          = processBatch oracles senders_dict attachments_dir rest
              (process_email (oracles j) senders_dict attachments_dir j w) := rfl
      rw [hstep]
      exact processBatch_seen_mono _ _ _ _ _ _
        (process_email_sets_seen _ _ _ _ _ h1 h2 h3 h4 h5)
    · exact ih _ h

/-- Claim C8, witness: in a two-message batch whose first message's fetch
raises, the second, well-behaved allow-listed message is still processed
and marked seen. -/
theorem failing_message_does_not_abort_batch_witness :
    (processBatch oraclesMixed [("a@x.com", "A")] "out" [1, 2] w0).seen 2 = true :=
  failing_message_does_not_abort_batch oraclesMixed [("a@x.com", "A")] "out" [1, 2] w0 2
    (by decide) rfl rfl rfl rfl (by decide)

lemma run_account_mail_none (cfg : AccountCfg) (today_date : String) (w : World)
    (hc : (connect cfg.connectOk).mail = none) :
    run_account cfg today_date w =
      { world := { w with
          dirs := (create_attachments_directory w.dirs cfg.mkdirFails cfg.base_dir today_date).1 }
        attachments_dir :=
          (create_attachments_directory w.dirs cfg.mkdirFails cfg.base_dir today_date).2
        mail := none
        uncaught := none } := by
  simp only [run_account, hc, logout, download_attachments]
  cases h2 : (create_attachments_directory w.dirs cfg.mkdirFails cfg.base_dir today_date).2 <;>
    simp [h2]

/-- Claim C1, counterexample: with a permanently failing connection and an
otherwise benign account, the run still creates the per-day output
directory (create_attachments_directory is called unconditionally after
connect in main), refuting the claim that no output directory is created on
connection failure. -/
theorem connect_failure_creates_directory_cex :
    (run_account cfgConnFail "2024-01-01" w0).mail = none
    ∧ (run_account cfgConnFail "2024-01-01" w0).world.dirs
        (pathJoin "base" "2024-01-01") = true := by
  decide

/-- Claim C1, amended: if connect exhausts all retry attempts, the run
touches no messages (file contents and seen flags are unchanged) and
terminates normally, but the per-day output directory is still created:
main calls create_attachments_directory unconditionally after connect, so
when makedirs does not fail the directory exists after the run. -/
theorem connect_failure_run_effects (cfg : AccountCfg) (today_date : String) (w : World)
    (hc : (connect cfg.connectOk).mail = none) :
    (run_account cfg today_date w).world.fs = w.fs
    ∧ (run_account cfg today_date w).world.seen = w.seen
    ∧ (run_account cfg today_date w).uncaught = none
    ∧ (cfg.mkdirFails = false →
        (run_account cfg today_date w).world.dirs (pathJoin cfg.base_dir today_date) = true) := by
  rw [run_account_mail_none cfg today_date w hc]
  refine ⟨rfl, rfl, rfl, ?_⟩
  intro hmk
  by_cases hdir : w.dirs (pathJoin cfg.base_dir today_date) = true <;>
    simp [create_attachments_directory, hdir, hmk]

/-- Claim C1 (amended), witness: concrete failing-connection account on an
empty world. -/
theorem connect_failure_run_effects_witness :
    (run_account cfgConnFail "2024-01-02" w0).world.fs = w0.fs
    ∧ (run_account cfgConnFail "2024-01-02" w0).world.seen = w0.seen
    ∧ (run_account cfgConnFail "2024-01-02" w0).uncaught = none
    ∧ (run_account cfgConnFail "2024-01-02" w0).world.dirs
        (pathJoin cfgConnFail.base_dir "2024-01-02") = true := by
  have h := connect_failure_run_effects cfgConnFail "2024-01-02" w0 (by decide)
  exact ⟨h.1, h.2.1, h.2.2.1, h.2.2.2 rfl⟩

/-- Claim C2, counterexample: main has no try/except around the account
loop, so when the first account's logout raises, the exception escapes main
and the second account never runs (only one account is started and the
error is propagated, not caught and logged by the orchestrator). -/
theorem main_loop_aborted_by_account_exception_cex :
    (main_loop "2024-01-01" [cfgLogoutRaises, cfgClean] w0).2.1 = 1
    ∧ (main_loop "2024-01-01" [cfgLogoutRaises, cfgClean] w0).2.2
        = some "logout failed" := by
  decide

/-- Claim C2, amended: failures handled inside an account's own methods
(connect retries exhausted, directory creation failure, search failures,
per-message errors) do not prevent subsequent accounts from running; but
main itself catches nothing, so all accounts of the list run exactly when
no account's run lets an exception escape, which only logout can do. -/
theorem main_loop_runs_all_accounts (today_date : String) (cfgs : List AccountCfg) (w : World)
    (h : ∀ cfg ∈ cfgs, logout (connect cfg.connectOk).mail cfg.logoutRaises = none) :
    (main_loop today_date cfgs w).2.1 = cfgs.length
    ∧ (main_loop today_date cfgs w).2.2 = none := by
  induction cfgs generalizing w with
  | nil => exact ⟨rfl, rfl⟩
  | cons cfg rest ih =>
    have hc : (run_account cfg today_date w).uncaught = none :=
      h cfg (List.mem_cons_self _ _)
    have ih2 := ih ((run_account cfg today_date w).world)
      (fun c hc2 => h c (List.mem_cons_of_mem _ hc2))
    simp only [main_loop, hc, List.length_cons]
    exact ⟨by rw [ih2.1], ih2.2⟩

/-- Claim C2 (amended), witness: two accounts whose runs let no exception
escape are both run. -/
theorem main_loop_runs_all_accounts_witness :
    (main_loop "2024-01-03" [cfgConnFail, cfgClean] w0).2.1
      = [cfgConnFail, cfgClean].length
    ∧ (main_loop "2024-01-03" [cfgConnFail, cfgClean] w0).2.2 = none :=
  main_loop_runs_all_accounts "2024-01-03" [cfgConnFail, cfgClean] w0 (by decide)

lemma pathJoin_inj (dir f g : String) (h : pathJoin dir f = pathJoin dir g) : f = g := by
  unfold pathJoin at h
  have hd := congrArg String.data h
  simp only [String.data_append, List.append_assoc] at hd
  exact String.ext (List.append_cancel_left (List.append_cancel_left hd))

lemma foldl_save_preserve (writeFails : String → Bool) (attachments_dir f : String)
    (v : Bytes) (parts : List Part) :
    ∀ (fs : FS),
      fs (pathJoin attachments_dir f) = some v →
      (∀ q ∈ parts, is_attachment q = true → q.filename = some f → q.payload = v) →
      (parts.foldl
        (fun fs part =>
          if is_attachment part then save_attachment writeFails attachments_dir fs part
          else fs)
        fs) (pathJoin attachments_dir f) = some v := by
  induction parts with
  | nil => intro fs h1 _; exact h1
  | cons q rest ih =>
    intro fs h1 h2
    simp only [List.foldl_cons]
    apply ih
    · by_cases ha : is_attachment q = true
      · rw [if_pos ha]
        unfold save_attachment
        cases hfn : q.filename with
        | none => exact h1
        | some g =>
          by_cases hwf : writeFails (pathJoin attachments_dir g) = true
          · simp [hwf, h1]
          · by_cases hfg : g = f
            · subst hfg
              have hqp := h2 q (List.mem_cons_self _ _) ha hfn
              simp [hwf, hqp]
            · have hne : pathJoin attachments_dir f ≠ pathJoin attachments_dir g :=
                fun hh => hfg (pathJoin_inj _ _ _ hh).symm
              simp [hwf, hne, h1]
      · rw [if_neg ha]
        exact h1
    · intro q2 hq2 hq2a hq2f
      exact h2 q2 (List.mem_cons_of_mem _ hq2) hq2a hq2f

lemma foldl_save_unique (writeFails : String → Bool) (attachments_dir f : String) (p : Part)
    (hpa : is_attachment p = true) (hpf : p.filename = some f)
    (hw : writeFails (pathJoin attachments_dir f) = false) (parts : List Part) :
    ∀ (fs : FS), p ∈ parts →
      (∀ q ∈ parts, is_attachment q = true → q.filename = some f → q = p) →
      (parts.foldl
        (fun fs part =>
          if is_attachment part then save_attachment writeFails attachments_dir fs part
          else fs)
        fs) (pathJoin attachments_dir f) = some p.payload := by
  induction parts with
  | nil => intro fs hp _; cases hp
  | cons q rest ih =>
    intro fs hp huniq
    simp only [List.foldl_cons]
    rcases List.mem_cons.mp hp with h | hp2
    · subst h
      have hstep :
          (if is_attachment p then save_attachment writeFails attachments_dir fs p else fs)
            (pathJoin attachments_dir f) = some p.payload := by
        rw [if_pos hpa]
        unfold save_attachment
        rw [hpf]
        simp [hw]
      exact foldl_save_preserve writeFails attachments_dir f p.payload rest _ hstep
        (fun q2 hq2 hq2a hq2f => by
          rw [huniq q2 (List.mem_cons_of_mem _ hq2) hq2a hq2f])
    · exact ih _ hp2
        (fun q2 hq2 hq2a hq2f => huniq q2 (List.mem_cons_of_mem _ hq2) hq2a hq2f)

/-- Claim C5, counterexample: a well-formed multipart message from an
allow-listed sender carrying two attachment parts that share the filename
a.txt, all writes succeeding.  The second write overwrites the first, so
the file at outputDirectory/a.txt holds the second payload and the first
attachment part does not end with a file containing its decoded payload,
refuting the claim as stated. -/
theorem duplicate_filename_overwrite_cex :
    (process_email oDup [("a@x.com", "A")] "out" 1 w0).fs (pathJoin "out" "a.txt")
      = some partDup2.payload
    ∧ (process_email oDup [("a@x.com", "A")] "out" 1 w0).fs (pathJoin "out" "a.txt")
      ≠ some partDup1.payload := by
  decide

/-- Claim C5, amended: for a message from an allow-listed sender that is
well-formed multipart, where fetch, parse and mark-read succeed: the
message ends marked seen whatever individual writes fail, and every
attachment part with a filename that no other attachment part of the
message shares, whose write succeeds, ends with exactly the file
outputDirectory/filename containing its decoded payload (when several
attachment parts share a filename, the last one overwrites the others). -/
theorem allowed_sender_saves_and_marks_seen (o : MsgOracle)
    (senders_dict : List (String × String)) (attachments_dir : String)
    (email_id : Nat) (w : World)
    (h1 : o.fetchExc = none) (h2 : o.fetchResult = "OK") (h3 : o.parseExc = none)
    (h4 : o.storeExc = none)
    (h5 : senderAllowed senders_dict o.msg.fromHeader = true)
    (h6 : o.msg.isMultipart = true) :
    ((process_email o senders_dict attachments_dir email_id w).seen email_id = true)
    ∧ ∀ p f, p ∈ o.msg.parts → is_attachment p = true → p.filename = some f →
        o.writeFails (pathJoin attachments_dir f) = false →
        (∀ q ∈ o.msg.parts, is_attachment q = true → q.filename = some f → q = p) →
        (process_email o senders_dict attachments_dir email_id w).fs
          (pathJoin attachments_dir f) = some p.payload := by
  constructor
  · exact process_email_sets_seen _ _ _ _ _ h1 h2 h3 h4 h5
  · intro p f hp hpa hpf hw huniq
    have hfs : (process_email o senders_dict attachments_dir email_id w).fs
        = save_attachments o.writeFails attachments_dir w.fs o.msg := by
      unfold process_email
      simp [h1, h2, h3, h4, h5]
    rw [hfs]
    unfold save_attachments
    rw [if_pos h6]
    exact foldl_save_unique o.writeFails attachments_dir f p hpa hpf hw o.msg.parts w.fs hp huniq

/-- Claim C5 (amended), witness: a concrete two-attachment message where
the write of f2 fails; f1 is saved with its payload and the message is
still marked seen. -/
theorem allowed_sender_saves_and_marks_seen_witness :
    (process_email oTwo [("a@x.com", "A")] "out" 3 w0).seen 3 = true
    ∧ (process_email oTwo [("a@x.com", "A")] "out" 3 w0).fs (pathJoin "out" "f1")
      = some partF1.payload := by
  have h := allowed_sender_saves_and_marks_seen oTwo [("a@x.com", "A")] "out" 3 w0
    rfl rfl rfl rfl (by decide) rfl
  exact ⟨h.1, h.2 partF1 "f1" (by decide) (by decide) rfl (by decide) (by decide)⟩

end MailDownloader
